import Mathlib

/-!
Formal model of the prediction service of the asym quiz platform
(src/services/prediction_service.py), together with theorems checking the
statistical pipeline against its natural-language specification.

Modelling conventions:
* Python floats are modelled as exact rationals; quantities produced through a
  square root (the consistency score, the score-range margin) live in the reals.
* datetime values are modelled as rational day counts; datetime.utcnow() becomes
  an explicit parameter now of the orchestrator, and (utcnow() - t).days becomes
  the integer floor of the day difference.
* Python truthiness on an optional float (if s.percentage_score) holds exactly
  when the value is present and nonzero; on an optional dict it holds exactly
  when the dict is present and nonempty.
* statistics.mean raises StatisticsError on an empty list; every call site in
  the source either guards emptiness or can actually raise.  The one reachable
  raise (in calculate_rank_percentile_prediction) is modelled by Option; the
  guarded calls use a total mean whose empty case is never taken.
* A value stored in a subject_scores mapping is dynamically typed in Python:
  either a bare number or a nested dict of numeric fields.  PyVal captures that.
-/

namespace PredictionService

/-- Dynamically typed value held in a subject-scores mapping: either a bare
number or a nested dictionary of numeric fields (documented shape: keys
correct, total, percentage). -/
inductive PyVal where
  | num (q : ℚ)
  | dict (fields : List (String × ℚ))
deriving DecidableEq

/-- Shallow embedding of a completed QuizSession record as consumed by the
prediction service: overall percentage score (optional), subject-wise score
mapping (optional), start time in days, and optional timing data. -/
structure QuizSession where
  percentage_score : Option ℚ
  subject_scores : Option (List (String × PyVal))
  started_at : ℚ
  time_taken_minutes : Option ℚ
  time_limit_minutes : Option ℚ
deriving DecidableEq

/-- Expected score range dictionary.  The source builds it with keys min and
max always present, and key expected present on all but one branch; the
optional field records that branch faithfully. -/
structure ScoreRange where
  min : ℝ
  max : ℝ
  expected : Option ℝ

/-- Structured prediction result (the PredictionResult dataclass). -/
structure PredictionResult where
  predicted_rank : ℤ
  predicted_percentile : ℚ
  subject_percentiles : List (String × PyVal)
  confidence_score : ℝ
  improvement_suggestions : List String
  performance_trend : String
  expected_score_range : ScoreRange

/-- Arithmetic mean (statistics.mean).  Call sites in the pipeline either
guard the empty case or, at the single reachable raising call, switch on
emptiness explicitly; the empty case here yields the junk value 0. -/
def mean (xs : List ℚ) : ℚ := xs.sum / (xs.length : ℚ)

/-- Sample variance (statistics.variance), denominator n - 1; the source
guards every call with a length check, so the junk value at n < 2 is never
consumed. -/
def variance (xs : List ℚ) : ℚ :=
  ((xs.map (fun x => (x - mean xs) ^ 2)).sum) / ((xs.length : ℚ) - 1)

/-- Python truthiness filter for overall scores, as in the comprehension
[s.percentage_score for s in sessions if s.percentage_score]: keeps scores
that are present and nonzero. -/
def scoresOf (sessions : List QuizSession) : List ℚ :=
  sessions.filterMap (fun s =>
    match s.percentage_score with
    | none => none
    | some p => if p = 0 then none else some p)

/-- Python slice xs[-n:]: the last n elements (the whole list when it is
shorter than n). -/
def lastN (n : ℕ) (xs : List ℚ) : List ℚ := xs.drop (xs.length - n)

/-- Python slice applied to sessions, sessions[-n:]. -/
def lastSessions (n : ℕ) (xs : List QuizSession) : List QuizSession :=
  xs.drop (xs.length - n)

/-- Python slice applied to sessions, sessions[:-n]. -/
def dropLastSessions (n : ℕ) (xs : List QuizSession) : List QuizSession :=
  xs.take (xs.length - n)

/-- Trend analysis (analyze_performance_trend): compares the mean of the
truthy scores among the last five sessions with the mean of the truthy scores
among all earlier sessions. -/
def analyze_performance_trend (sessions : List QuizSession) : String :=
  if sessions.length < 3 then "insufficient_data"
  else
    let recent_scores := scoresOf (lastSessions 5 sessions)
    let older_scores := scoresOf (dropLastSessions 5 sessions)
    if recent_scores = [] ∨ older_scores = [] then "insufficient_data"
    else
      let improvement := mean recent_scores - mean older_scores
      if improvement > 5 then "improving"
      else if improvement < -5 then "declining"
      else "stable"

/-- First whitespace-delimited token of a target-exam label, modelling
target_exam.split()[0] (the raising empty case yields the empty string;
whitespace is modelled as the space character). -/
def firstToken (s : String) : String :=
  String.mk ((s.data.dropWhile (fun c => c = ' ')).takeWhile (fun c => c ≠ ' '))

/-- Python str.upper(), modelled character-wise. -/
def upperStr (s : String) : String := String.mk (s.data.map Char.toUpper)

/-- Candidate-pool estimate (get_estimated_candidates): lookup of the
upper-cased exam-family token in a fixed table, defaulting to 100000. -/
def get_estimated_candidates (target_exam : String) : ℤ :=
  let estimates : List (String × ℤ) :=
    [("CAT", 200000), ("JEE", 1000000), ("NEET", 1500000), ("GATE", 800000)]
  (estimates.lookup (upperStr (firstToken target_exam))).getD 100000

/-- Python int() applied to a float: truncation toward zero. -/
def pyInt (q : ℚ) : ℤ := if 0 ≤ q then ⌊q⌋ else ⌈q⌉

/-- Percentile-to-rank conversion, the final lines of
calculate_rank_percentile_prediction:
int(total_candidates * (100 - percentile) / 100) clamped below by 1. -/
def predicted_rank_of (target_exam : String) (predicted_percentile : ℚ) : ℤ :=
  max 1 (pyInt ((get_estimated_candidates target_exam : ℚ) *
    (100 - predicted_percentile) / 100))

/-- Rank and percentile prediction (calculate_rank_percentile_prediction).
Returns none exactly when statistics.mean raises StatisticsError because no
session carries a truthy overall percentage. -/
def calculate_rank_percentile_prediction (sessions : List QuizSession)
    (target_exam : String) : Option (ℤ × ℚ) :=
  let scores := scoresOf sessions
  if scores = [] then none
  else
    let avg_percentile := mean scores
    let recent_percentiles := scoresOf (lastSessions 3 sessions)
    let recent_avg :=
      if recent_percentiles = [] then avg_percentile else mean recent_percentiles
    let weighted_percentile := recent_avg * 0.7 + avg_percentile * 0.3
    let trend := analyze_performance_trend sessions
    let adjusted :=
      if trend = "improving" then weighted_percentile + 3
      else if trend = "declining" then weighted_percentile - 2
      else weighted_percentile
    let predicted_percentile := max 0 (min 100 adjusted)
    some (predicted_rank_of target_exam predicted_percentile, predicted_percentile)

/-- Subjects observed across the history (the set union in
calculate_subject_predictions), in first-encounter order. -/
def allSubjects (sessions : List QuizSession) : List String :=
  (sessions.foldl (fun acc s =>
    match s.subject_scores with
    | none => acc
    | some d => if d = [] then acc else acc ++ d.map Prod.fst) []).dedup

/-- Observed percentage samples of one subject across the history: sessions
with a truthy subject_scores dict containing the subject, whose value is a
dict carrying a percentage key. -/
def subjectScoresFor (sessions : List QuizSession) (subject : String) : List ℚ :=
  sessions.filterMap (fun s =>
    match s.subject_scores with
    | none => none
    | some d =>
      if d = [] then none
      else
        match d.lookup subject with
        | none => none
        | some (PyVal.num _) => none
        | some (PyVal.dict fields) => fields.lookup "percentage")

/-- Fixed difficulty-adjustment table of apply_subject_adjustments. -/
def difficulty_adjustments : List (String × ℚ) :=
  [("quantitative_aptitude", 0), ("verbal_ability", -1),
   ("data_interpretation", 1), ("logical_reasoning", -0.5)]

/-- Subject-key normalization, subject.lower().replace(" ", "_"), modelled
character-wise. -/
def normalizeSubject (subject : String) : String :=
  String.mk ((subject.data.map Char.toLower).map (fun c => if c = ' ' then '_' else c))

/-- Subject-specific adjustment (apply_subject_adjustments): a consistency
factor from the sample variance of the historical scores, then a fixed
difficulty bias looked up by normalized subject name. -/
def apply_subject_adjustments (subject : String) (base_percentile : ℚ)
    (historical_scores : List ℚ) : ℚ :=
  let consistency_factor :=
    if 1 < historical_scores.length then
      max 0.9 (1 - variance historical_scores / 1000)
    else 0.95
  let difficulty_adj :=
    (difficulty_adjustments.lookup (normalizeSubject subject)).getD 0
  base_percentile * consistency_factor + difficulty_adj

/-- Predicted percentile of one subject: recency-weighted base, subject
adjustments, clamp to [0, 100]; none when the subject has no samples. -/
def subject_prediction_of (sessions : List QuizSession) (subject : String) :
    Option ℚ :=
  let subject_scores := subjectScoresFor sessions subject
  if subject_scores = [] then none
  else
    let base :=
      if 3 ≤ subject_scores.length then
        mean (lastN 3 subject_scores) * 0.7 + mean subject_scores * 0.3
      else mean subject_scores
    some (max 0 (min 100 (apply_subject_adjustments subject base subject_scores)))

/-- Subject-wise predictions (calculate_subject_predictions), assembled over
all observed subjects. -/
def calculate_subject_predictions (sessions : List QuizSession) :
    List (String × ℚ) :=
  (allSubjects sessions).filterMap (fun subject =>
    (subject_prediction_of sessions subject).map (fun p => (subject, p)))

/-- Time-efficiency score (calculate_time_efficiency): for sessions with
truthy taken and limit and positive limit, score the ratio of time used;
default 0.8 when no session qualifies. -/
def calculate_time_efficiency (sessions : List QuizSession) : ℚ :=
  let efficiencies := sessions.filterMap (fun s =>
    match s.time_taken_minutes, s.time_limit_minutes with
    | some taken, some limit =>
      if taken ≠ 0 ∧ limit ≠ 0 then
        if 0 < limit then
          let efficiency := min 1 (taken / limit)
          if 0.8 ≤ efficiency ∧ efficiency ≤ 0.95 then some 1
          else if efficiency < 0.8 then some (efficiency / 0.8)
          else some (0.95 / efficiency)
        else none
      else none
    | _, _ => none)
  if efficiencies = [] then 0.8 else mean efficiencies

/-- Consistency score (calculate_consistency_score): coefficient of variation
of the truthy overall scores, mapped to [0, 1]; 0.5 on fewer than two samples
and 0.1 on zero mean. -/
noncomputable def calculate_consistency_score (sessions : List QuizSession) : ℝ :=
  let scores := scoresOf sessions
  if scores.length < 2 then 0.5
  else
    let mean_score := mean scores
    if mean_score = 0 then 0.1
    else
      let coefficient_of_variation :=
        Real.sqrt ((variance scores : ℚ) : ℝ) / ((mean_score : ℚ) : ℝ)
      min 1 (max 0 (1 - coefficient_of_variation / 0.5))

/-- Start time of the latest session, max(sessions, key=started_at); the junk
default 0 is guarded by the caller's length check. -/
def latestStart (sessions : List QuizSession) : ℚ :=
  ((sessions.map (fun s => s.started_at)).max?).getD 0

/-- Completeness test of one session, the comprehension filter
[s for s in sessions if s.percentage_score and s.subject_scores]: truthy
overall percentage and truthy subject breakdown. -/
def isCompleteSession (s : QuizSession) : Bool :=
  (match s.percentage_score with
   | none => false
   | some p => decide (p ≠ 0)) &&
  (match s.subject_scores with
   | none => false
   | some d => decide (d ≠ []))

/-- Confidence estimation (calculate_prediction_confidence), with now the
current time in days standing in for datetime.utcnow(). -/
noncomputable def calculate_prediction_confidence (now : ℚ)
    (sessions : List QuizSession) : ℝ :=
  if sessions.length < 3 then 0.3
  else
    let test_count_factor : ℚ := min 1 ((sessions.length : ℚ) / 10)
    let consistency_factor := calculate_consistency_score sessions
    let days_since_last : ℤ := ⌊now - latestStart sessions⌋
    let recency_factor : ℚ := max 0.5 (1 - (days_since_last : ℚ) / 90)
    let complete_sessions := sessions.filter isCompleteSession
    let completeness_factor : ℚ :=
      (complete_sessions.length : ℚ) / (sessions.length : ℚ)
    min 0.95 (max 0.1
      ((test_count_factor : ℝ) * 0.3 + consistency_factor * 0.3 +
        (recency_factor : ℝ) * 0.2 + (completeness_factor : ℝ) * 0.2))

/-- Round half to even (the semantics of Python round): at a tie the even
neighbour is chosen, which doubling reduces to ordinary rounding. -/
noncomputable def rhe (x : ℝ) : ℤ :=
  if Int.fract x = 1 / 2 then 2 * round (x / 2) else round x

/-- Python round(x, 2): round half to even at two decimal places. -/
noncomputable def round2 (x : ℝ) : ℝ := ((rhe (x * 100) : ℤ) : ℝ) / 100

/-- Expected score range (calculate_score_range).  The branch with no truthy
scores builds the dictionary without the expected key, recorded here as the
none field; it is unreachable from the full pipeline. -/
noncomputable def calculate_score_range (sessions : List QuizSession)
    (confidence : ℝ) : ScoreRange :=
  let scores := scoresOf sessions
  if scores = [] then { min := 0, max := 100, expected := none }
  else
    let mean_score : ℝ := ((mean scores : ℚ) : ℝ)
    let std_dev : ℝ :=
      if 1 < scores.length then Real.sqrt ((variance scores : ℚ) : ℝ) else 10
    let margin := std_dev * (2 - confidence)
    { min := round2 (max 0 (mean_score - margin))
      max := round2 (min 100 (mean_score + margin))
      expected := some (round2 mean_score) }

/-- Improvement suggestions (generate_improvement_suggestions): ordered
checks, capped at five. -/
noncomputable def generate_improvement_suggestions (sessions : List QuizSession)
    (subject_predictions : List (String × ℚ)) : List String :=
  let weak_subjects :=
    (subject_predictions.filter (fun sp => decide (sp.2 < 70))).map Prod.fst
  let time_suggestions : List String :=
    if calculate_time_efficiency sessions < 0.8 then
      ["Focus on time management - practice solving questions within time limits"]
    else []
  let subject_suggestions : List String := weak_subjects.filterMap (fun subject =>
    match subject_predictions.lookup subject with
    | none => none
    | some percentile =>
      if percentile < 50 then
        some ("Priority: Strengthen " ++ subject ++
          " fundamentals - aim for 60+ percentile")
      else if percentile < 70 then
        some ("Focus on advanced " ++ subject ++
          " topics to push above 70 percentile")
      else none)
  let consistency_suggestions : List String :=
    if calculate_consistency_score sessions < 0.7 then
      ["Work on consistency - maintain regular practice schedule"]
    else []
  let trend := analyze_performance_trend sessions
  let trend_suggestions : List String :=
    if trend = "declining" then
      ["Review recent weak areas and adjust study strategy"]
    else if trend = "stable" ∧ subject_predictions ≠ [] then
      if mean (subject_predictions.map Prod.snd) < 80 then
        ["Push for breakthrough - focus on accuracy improvement"]
      else []
    else []
  (time_suggestions ++ subject_suggestions ++ consistency_suggestions ++
    trend_suggestions).take 5

/-- Fallback session used only as the unreachable default of getLastD. -/
def defaultSession : QuizSession :=
  { percentage_score := none, subject_scores := none, started_at := 0,
    time_taken_minutes := none, time_limit_minutes := none }

/-- Preliminary prediction (generate_preliminary_prediction) for histories of
fewer than three sessions. -/
def generate_preliminary_prediction (target_exam : String)
    (sessions : List QuizSession) : PredictionResult :=
  if sessions = [] then
    { predicted_rank := 50000
      predicted_percentile := 50
      subject_percentiles := []
      confidence_score := 0.1
      improvement_suggestions :=
        ["Take more mock tests to get accurate predictions",
         "Focus on building strong fundamentals in all subjects"]
      performance_trend := "insufficient_data"
      expected_score_range := { min := 0, max := 100, expected := some 50 } }
  else
    let latest_session := sessions.getLastD defaultSession
    let base_percentile :=
      match latest_session.percentage_score with
      | none => 50
      | some p => if p = 0 then 50 else p
    let total_candidates := get_estimated_candidates target_exam
    let predicted_rank :=
      pyInt ((total_candidates : ℚ) * (100 - base_percentile) / 100)
    { predicted_rank := predicted_rank
      predicted_percentile := base_percentile
      subject_percentiles := latest_session.subject_scores.getD []
      confidence_score := 0.3
      improvement_suggestions :=
        ["Take at least 3 more mock tests for better predictions",
         "Focus on identifying strengths and weaknesses"]
      performance_trend := "preliminary"
      expected_score_range :=
        { min := ((max 0 (base_percentile - 20) : ℚ) : ℝ)
          max := ((min 100 (base_percentile + 20) : ℚ) : ℝ)
          expected := some ((base_percentile : ℚ) : ℝ) } }

/-- Orchestrator (generate_prediction) over an already fetched history, with
now the current time in days.  Returns none exactly when the underlying
statistics call raises. -/
noncomputable def generate_prediction (now : ℚ) (target_exam : String)
    (sessions : List QuizSession) : Option PredictionResult :=
  if sessions.length < 3 then
    some (generate_preliminary_prediction target_exam sessions)
  else
    let performance_trend := analyze_performance_trend sessions
    match calculate_rank_percentile_prediction sessions target_exam with
    | none => none
    | some (predicted_rank, predicted_percentile) =>
      let subject_percentiles := calculate_subject_predictions sessions
      let suggestions :=
        generate_improvement_suggestions sessions subject_percentiles
      let confidence := calculate_prediction_confidence now sessions
      let score_range := calculate_score_range sessions confidence
      some
        { predicted_rank := predicted_rank
          predicted_percentile := predicted_percentile
          subject_percentiles :=
            subject_percentiles.map (fun sp => (sp.1, PyVal.num sp.2))
          confidence_score := confidence
          improvement_suggestions := suggestions
          performance_trend := performance_trend
          expected_score_range := score_range }

/-! Specification-side definitions.  Each definition below follows the words
of a spec sentence (or of a minimally amended form of it) rather than the
source, so that the source-derived definitions above can be compared against
them. -/

/-- Spec 4.5 candidate-pool table, written from the spec words: CAT, JEE,
NEET, GATE and a 100000 default for an unknown exam family. -/
def claimed_pool_size (exam_family : String) : ℤ :=
  if exam_family = "CAT" then 200000
  else if exam_family = "JEE" then 1000000
  else if exam_family = "NEET" then 1500000
  else if exam_family = "GATE" then 800000
  else 100000

/-- Spec 4.5 rank formula as claimed: the nearest integer (round) of
pool_size * (100 - percentile) / 100, clamped below by 1. -/
def claimed_predicted_rank (target_exam : String) (p : ℚ) : ℤ :=
  max 1 (round ((claimed_pool_size (upperStr (firstToken target_exam)) : ℚ) *
    (100 - p) / 100))

/-- Scores that are present and nonzero, phrased as the spec amendment
phrases it: the non-null samples, restricted to the nonzero ones. -/
def truthyScores (sessions : List QuizSession) : List ℚ :=
  (sessions.filterMap (fun s => s.percentage_score)).filter (fun p => decide (p ≠ 0))

/-- Trend analysis written from the claim: requires at least 3 attempts with
a non-null overall percentage, and compares non-null score means of the
last-5 window against all earlier attempts. -/
def claimed_performance_trend (sessions : List QuizSession) : String :=
  if (sessions.filterMap (fun s => s.percentage_score)).length < 3 then
    "insufficient_data"
  else
    let recent := (lastSessions 5 sessions).filterMap (fun s => s.percentage_score)
    let older := (dropLastSessions 5 sessions).filterMap (fun s => s.percentage_score)
    if recent = [] ∨ older = [] then "insufficient_data"
    else if mean recent - mean older > 5 then "improving"
    else if mean recent - mean older < -5 then "declining"
    else "stable"

/-- Trend analysis written from the amended claim: requires at least 3
attempts in total, and filters each window down to its present-and-nonzero
scores before comparing means. -/
def amended_performance_trend (sessions : List QuizSession) : String :=
  if sessions.length < 3 then "insufficient_data"
  else
    let recent := truthyScores (lastSessions 5 sessions)
    let older := truthyScores (dropLastSessions 5 sessions)
    if recent = [] ∨ older = [] then "insufficient_data"
    else
      let d := mean recent - mean older
      if d > 5 then "improving"
      else if d < -5 then "declining"
      else "stable"

/-- Population variance, denominator n, as named by spec 4.4. -/
def population_variance (xs : List ℚ) : ℚ :=
  ((xs.map (fun x => (x - mean xs) ^ 2)).sum) / (xs.length : ℚ)

/-- Consistency of a sample list exactly as spec 4.4 words it: 0.5 under two
samples, 0.1 on zero mean, else clamp(1 - CV/0.5, 0, 1) with
CV = sqrt(population variance)/mean. -/
noncomputable def spec_consistency_of (samples : List ℚ) : ℝ :=
  if samples.length < 2 then 0.5
  else if mean samples = 0 then 0.1
  else
    min 1 (max 0 (1 -
      (Real.sqrt ((population_variance samples : ℚ) : ℝ) /
        ((mean samples : ℚ) : ℝ)) / 0.5))

/-- Consistency score written from the claim: spec 4.4 applied to the
non-null overall-percentage samples. -/
noncomputable def claimed_consistency_score (sessions : List QuizSession) : ℝ :=
  spec_consistency_of (sessions.filterMap (fun s => s.percentage_score))

/-- Consistency score written from the amended claim: samples are the
present-and-nonzero overall percentages, and CV uses the sample variance
(denominator n - 1). -/
noncomputable def amended_consistency_score (sessions : List QuizSession) : ℝ :=
  let samples := truthyScores sessions
  if samples.length < 2 then 0.5
  else if mean samples = 0 then 0.1
  else
    min 1 (max 0 (1 -
      (Real.sqrt ((variance samples : ℚ) : ℝ) /
        ((mean samples : ℚ) : ℝ)) / 0.5))

/-- Difficulty-bias table written from the claim words. -/
def claimed_difficulty_bias (key : String) : ℚ :=
  if key = "quantitative_aptitude" then 0
  else if key = "verbal_ability" then -1
  else if key = "data_interpretation" then 1
  else if key = "logical_reasoning" then -0.5
  else 0

/-- Per-subject prediction written from the claim: recency-weighted base,
multiplied by a consistency factor computed identically to spec 4.4 but
floored at 0.9 for at least two samples (0.95 for one), plus the difficulty
bias, clamped to [0, 100]. -/
noncomputable def claimed_subject_prediction (sessions : List QuizSession)
    (subject : String) : Option ℝ :=
  let scores := subjectScoresFor sessions subject
  if scores = [] then none
  else
    let base : ℚ :=
      if 3 ≤ scores.length then
        mean (lastN 3 scores) * 0.7 + mean scores * 0.3
      else mean scores
    let factor : ℝ :=
      if 2 ≤ scores.length then max 0.9 (spec_consistency_of scores) else 0.95
    some (max 0 (min 100 ((base : ℚ) * factor +
      ((claimed_difficulty_bias (normalizeSubject subject) : ℚ) : ℝ))))

/-- Per-subject prediction written from the amended claim: the consistency
factor is max(0.9, 1 - sample variance / 1000) for at least two samples and
0.95 for one sample; everything else as in the claim. -/
def amended_subject_prediction (sessions : List QuizSession)
    (subject : String) : Option ℚ :=
  let scores := subjectScoresFor sessions subject
  if scores = [] then none
  else
    let base :=
      if 3 ≤ scores.length then
        mean (lastN 3 scores) * 0.7 + mean scores * 0.3
      else mean scores
    let factor :=
      if 2 ≤ scores.length then max 0.9 (1 - variance scores / 1000) else 0.95
    some (max 0 (min 100
      (base * factor + claimed_difficulty_bias (normalizeSubject subject))))

/-- Input sanity assumption matching the AttemptRecord contract: every
recorded overall percentage lies in [0, 100]. -/
def ValidHistory (sessions : List QuizSession) : Prop :=
  ∀ s ∈ sessions, ∀ p, s.percentage_score = some p → 0 ≤ p ∧ p ≤ 100

/-- Numeric bounds of the claimed result invariant: percentile in [0, 100],
confidence in [0.1, 0.95], and a score range with the expected key present,
ordered min, expected, max, all within [0, 100]. -/
def BoundsInvariant (r : PredictionResult) : Prop :=
  (0 ≤ r.predicted_percentile ∧ r.predicted_percentile ≤ 100) ∧
  ((0.1 : ℝ) ≤ r.confidence_score ∧ r.confidence_score ≤ 0.95) ∧
  (∃ e, r.expected_score_range.expected = some e ∧
    0 ≤ r.expected_score_range.min ∧ r.expected_score_range.min ≤ e ∧
    e ≤ r.expected_score_range.max ∧ r.expected_score_range.max ≤ 100)

/-- Subject clause of the claimed result invariant: every value of the
subject-percentile mapping is a bare number within [0, 100]. -/
def SubjectValuesNumeric (r : PredictionResult) : Prop :=
  ∀ kv ∈ r.subject_percentiles, ∃ q, kv.2 = PyVal.num q ∧ 0 ≤ q ∧ q ≤ 100

/-- Claimed result invariant, the conjunction of both clauses. -/
def ClaimedResultInvariant (r : PredictionResult) : Prop :=
  BoundsInvariant r ∧ SubjectValuesNumeric r

/-! Concrete sessions used as witnesses and counterexamples. -/

/-- Session with only an overall score. -/
def mkSession (p : Option ℚ) : QuizSession :=
  { percentage_score := p, subject_scores := none, started_at := 0,
    time_taken_minutes := none, time_limit_minutes := none }

/-- Session with an overall score and one subject entry of the documented
dict shape carrying a percentage field. -/
def mkSubjectSession (p : Option ℚ) (subject : String) (sc : ℚ) : QuizSession :=
  { percentage_score := p,
    subject_scores := some [(subject, PyVal.dict [("percentage", sc)])],
    started_at := 0, time_taken_minutes := none, time_limit_minutes := none }

/-- Six-session history whose only non-null overall percentages sit at the
two ends: 60 on the oldest attempt and 70 on the newest. -/
def trendSessions : List QuizSession :=
  [mkSession (some 60), mkSession none, mkSession none, mkSession none,
   mkSession none, mkSession (some 70)]

/-- Two-session history carrying subject math percentages 50 and 60. -/
def subjectSessions : List QuizSession :=
  [mkSubjectSession none "math" 50, mkSubjectSession none "math" 60]

/-- Two-session history with overall percentages 30 and 70. -/
def consistencySessions : List QuizSession :=
  [mkSession (some 30), mkSession (some 70)]

/-- Three identical full-data sessions: overall percentage 60, one subject
entry, started at day 0. -/
def timeSessions : List QuizSession :=
  [mkSubjectSession (some 60) "quant" 60, mkSubjectSession (some 60) "quant" 60,
   mkSubjectSession (some 60) "quant" 60]

/-- One session with overall percentage 80 and a dict-shaped subject entry. -/
def dictSession : QuizSession := mkSubjectSession (some 80) "quant" 80

/-- The zero-attempt preliminary result fixed by the source. -/
def zero_attempt_result : PredictionResult :=
  { predicted_rank := 50000
    predicted_percentile := 50
    subject_percentiles := []
    confidence_score := 0.1
    improvement_suggestions :=
      ["Take more mock tests to get accurate predictions",
       "Focus on building strong fundamentals in all subjects"]
    performance_trend := "insufficient_data"
    expected_score_range := { min := 0, max := 100, expected := some 50 } }

/-! Helper lemmas. -/

theorem pyInt_eq_floor {q : ℚ} (h : 0 ≤ q) : pyInt q = ⌊q⌋ := by
  unfold pyInt
  exact if_pos h

theorem get_estimated_candidates_eq (target_exam : String) :
    get_estimated_candidates target_exam =
      claimed_pool_size (upperStr (firstToken target_exam)) := by
  unfold get_estimated_candidates claimed_pool_size
  generalize upperStr (firstToken target_exam) = tok
  simp only [List.lookup]
  by_cases h1 : tok = "CAT" <;> by_cases h2 : tok = "JEE" <;>
    by_cases h3 : tok = "NEET" <;> by_cases h4 : tok = "GATE" <;>
    simp_all [show ∀ a b : String, (a == b) = decide (a = b) from fun a b => rfl]

theorem claimed_pool_size_pos (exam_family : String) :
    0 < claimed_pool_size exam_family := by
  unfold claimed_pool_size
  split_ifs <;> norm_num

theorem difficulty_bias_eq (key : String) :
    (difficulty_adjustments.lookup key).getD 0 = claimed_difficulty_bias key := by
  unfold difficulty_adjustments claimed_difficulty_bias
  simp only [List.lookup]
  by_cases h1 : key = "quantitative_aptitude" <;>
    by_cases h2 : key = "verbal_ability" <;>
    by_cases h3 : key = "data_interpretation" <;>
    by_cases h4 : key = "logical_reasoning" <;>
    simp_all [show ∀ a b : String, (a == b) = decide (a = b) from fun a b => rfl]

theorem scoresOf_eq_truthy (sessions : List QuizSession) :
    scoresOf sessions = truthyScores sessions := by
  induction sessions with
  | nil => rfl
  | cons s t ih =>
    unfold scoresOf truthyScores at *
    cases hp : s.percentage_score with
    | none => simpa [List.filterMap_cons, hp] using ih
    | some p =>
      by_cases h0 : p = 0
      · simpa [List.filterMap_cons, List.filter_cons, hp, h0] using ih
      · simpa [List.filterMap_cons, List.filter_cons, hp, h0] using ih

theorem mem_scoresOf {x : ℚ} {sessions : List QuizSession}
    (h : x ∈ scoresOf sessions) : ∃ s ∈ sessions, s.percentage_score = some x := by
  unfold scoresOf at h
  rw [List.mem_filterMap] at h
  obtain ⟨s, hs, he⟩ := h
  refine ⟨s, hs, ?_⟩
  cases hp : s.percentage_score with
  | none => simp [hp] at he
  | some p =>
    rw [hp] at he
    by_cases h0 : p = 0
    · simp [h0] at he
    · simp only [if_neg h0] at he
      cases he
      rfl

theorem mean_nonneg {xs : List ℚ} (h : ∀ x ∈ xs, 0 ≤ x) : 0 ≤ mean xs :=
  div_nonneg (List.sum_nonneg h) (Nat.cast_nonneg _)

theorem mean_le_of_le {xs : List ℚ} {b : ℚ} (hb : 0 ≤ b)
    (h : ∀ x ∈ xs, x ≤ b) : mean xs ≤ b := by
  rcases eq_or_ne xs [] with rfl | hne
  · simpa [mean] using hb
  · have hlen : 0 < (xs.length : ℚ) := by
      have h2 := List.length_pos.mpr hne
      exact_mod_cast h2
    rw [mean, div_le_iff₀ hlen]
    calc xs.sum ≤ xs.length • b := List.sum_le_card_nsmul xs b h
      _ = b * (xs.length : ℚ) := by rw [nsmul_eq_mul]; ring

theorem abs_rhe_sub (x : ℝ) : |(rhe x : ℝ) - x| ≤ 1 / 2 := by
  unfold rhe
  split_ifs with h
  · have hfl : x - (⌊x⌋ : ℝ) = 1 / 2 := by
      have h2 := Int.self_sub_floor x
      rw [h] at h2
      linarith
    have hx : x = (⌊x⌋ : ℝ) + 1 / 2 := by linarith
    rcases Int.even_or_odd ⌊x⌋ with ⟨k, hk⟩ | ⟨k, hk⟩
    · have hx2 : x / 2 = (k : ℝ) + 1 / 4 := by
        rw [hx, hk]; push_cast; ring
      have hr : round (x / 2) = k := by
        rw [round_eq, hx2]
        have he : (k : ℝ) + 1 / 4 + 1 / 2 = (3 / 4 : ℝ) + k := by ring
        rw [he, Int.floor_add_int]
        norm_num
      rw [hr, hx, hk]
      push_cast
      rw [abs_le]
      constructor <;> linarith
    · have hx2 : x / 2 = (k : ℝ) + 3 / 4 := by
        rw [hx, hk]; push_cast; ring
      have hr : round (x / 2) = k + 1 := by
        rw [round_eq, hx2]
        have he : (k : ℝ) + 3 / 4 + 1 / 2 = (5 / 4 : ℝ) + k := by ring
        rw [he, Int.floor_add_int]
        have h14 : ⌊(5 / 4 : ℝ)⌋ = 1 := by norm_num
        rw [h14]
        omega
      rw [hr, hx, hk]
      push_cast
      rw [abs_le]
      constructor <;> linarith
  · have h2 := abs_sub_round x
    rw [abs_sub_comm] at h2
    exact h2

theorem rhe_mono {x y : ℝ} (h : x ≤ y) : rhe x ≤ rhe y := by
  by_contra hlt
  push_neg at hlt
  have h1 := abs_le.mp (abs_rhe_sub x)
  have h2 := abs_le.mp (abs_rhe_sub y)
  have hstep : (rhe y : ℝ) + 1 ≤ (rhe x : ℝ) := by
    have h3 : rhe y + 1 ≤ rhe x := hlt
    exact_mod_cast h3
  have hyx : y ≤ x := by linarith
  have hxy : x = y := le_antisymm h hyx
  subst hxy
  omega

theorem round2_mono {x y : ℝ} (h : x ≤ y) : round2 x ≤ round2 y := by
  unfold round2
  have h1 : rhe (x * 100) ≤ rhe (y * 100) :=
    rhe_mono (mul_le_mul_of_nonneg_right h (by norm_num))
  have h2 : ((rhe (x * 100) : ℤ) : ℝ) ≤ ((rhe (y * 100) : ℤ) : ℝ) := by
    exact_mod_cast h1
  linarith

theorem round2_zero : round2 0 = 0 := by
  unfold round2 rhe
  norm_num

theorem round2_hundred : round2 100 = 100 := by
  unfold round2 rhe
  have h1 : (100 : ℝ) * 100 = ((10000 : ℤ) : ℝ) := by norm_num
  rw [h1, Int.fract_intCast]
  rw [if_neg (by norm_num : ¬ (0 : ℝ) = 1 / 2)]
  rw [round_intCast]
  norm_num

theorem getLastD_mem {α : Type} :
    ∀ (l : List α) (d : α), l ≠ [] → l.getLastD d ∈ l := by
  intro l
  induction l with
  | nil => intro d h; exact absurd rfl h
  | cons a t ih =>
    intro d h
    rw [List.getLastD_cons]
    cases ht : t with
    | nil => simp [ht, List.getLastD]
    | cons b u =>
      have h2 := ih a (by simp [ht])
      rw [ht] at h2
      exact List.mem_cons_of_mem a h2

theorem confidence_bounds (now : ℚ) (sessions : List QuizSession) :
    (0.1 : ℝ) ≤ calculate_prediction_confidence now sessions ∧
    calculate_prediction_confidence now sessions ≤ 0.95 := by
  unfold calculate_prediction_confidence
  split_ifs with h
  · norm_num
  · constructor
    · exact le_min (by norm_num) (le_max_left _ _)
    · exact min_le_left _ _

theorem rank_percentile_some {sessions : List QuizSession} {target_exam : String}
    {rank : ℤ} {pct : ℚ}
    (h : calculate_rank_percentile_prediction sessions target_exam =
      some (rank, pct)) :
    scoresOf sessions ≠ [] ∧ 0 ≤ pct ∧ pct ≤ 100 := by
  simp only [calculate_rank_percentile_prediction] at h
  split at h
  · cases h
  · rw [Option.some_inj] at h
    cases h
    refine ⟨by assumption, le_max_left _ _, ?_⟩
    exact max_le (by norm_num) (min_le_left _ _)

theorem scoresOf_bounds {sessions : List QuizSession} (hv : ValidHistory sessions) :
    ∀ x ∈ scoresOf sessions, 0 ≤ x ∧ x ≤ 100 := by
  intro x hx
  obtain ⟨s, hs, hp⟩ := mem_scoresOf hx
  exact hv s hs x hp

theorem score_range_ok {sessions : List QuizSession} (hv : ValidHistory sessions)
    (hne : scoresOf sessions ≠ []) {conf : ℝ} (hconf : conf ≤ 0.95) :
    ∃ e, (calculate_score_range sessions conf).expected = some e ∧
      0 ≤ (calculate_score_range sessions conf).min ∧
      (calculate_score_range sessions conf).min ≤ e ∧
      e ≤ (calculate_score_range sessions conf).max ∧
      (calculate_score_range sessions conf).max ≤ 100 := by
  have hb := scoresOf_bounds hv
  have hm0 : (0 : ℚ) ≤ mean (scoresOf sessions) :=
    mean_nonneg (fun x hx => (hb x hx).1)
  have hm100 : mean (scoresOf sessions) ≤ 100 :=
    mean_le_of_le (by norm_num) (fun x hx => (hb x hx).2)
  have hm0R : (0 : ℝ) ≤ ((mean (scoresOf sessions) : ℚ) : ℝ) := by
    exact_mod_cast hm0
  have hm100R : ((mean (scoresOf sessions) : ℚ) : ℝ) ≤ 100 := by
    exact_mod_cast hm100
  unfold calculate_score_range
  rw [if_neg hne]
  dsimp only
  set m : ℝ := ((mean (scoresOf sessions) : ℚ) : ℝ) with hm
  set sd : ℝ := (if 1 < (scoresOf sessions).length then
    Real.sqrt ((variance (scoresOf sessions) : ℚ) : ℝ) else 10) with hsd
  have hsd0 : 0 ≤ sd := by
    rw [hsd]
    split_ifs
    · exact Real.sqrt_nonneg _
    · norm_num
  have hmargin : 0 ≤ sd * (2 - conf) := mul_nonneg hsd0 (by linarith)
  refine ⟨round2 m, rfl, ?_, ?_, ?_, ?_⟩
  · have h1 : (0 : ℝ) ≤ max 0 (m - sd * (2 - conf)) := le_max_left _ _
    have h2 := round2_mono h1
    rw [round2_zero] at h2
    exact h2
  · have h1 : max 0 (m - sd * (2 - conf)) ≤ m := max_le hm0R (by linarith)
    exact round2_mono h1
  · have h1 : m ≤ min 100 (m + sd * (2 - conf)) := le_min hm100R (by linarith)
    exact round2_mono h1
  · have h1 : min 100 (m + sd * (2 - conf)) ≤ 100 := min_le_left _ _
    have h2 := round2_mono h1
    rw [round2_hundred] at h2
    exact h2

theorem subject_predictions_bounds (sessions : List QuizSession) :
    ∀ sp ∈ calculate_subject_predictions sessions, 0 ≤ sp.2 ∧ sp.2 ≤ 100 := by
  intro sp hsp
  unfold calculate_subject_predictions at hsp
  rw [List.mem_filterMap] at hsp
  obtain ⟨subject, hsub, he⟩ := hsp
  cases hq : subject_prediction_of sessions subject with
  | none => rw [hq] at he; cases he
  | some q =>
    rw [hq] at he
    simp only [Option.map_some', Option.some_inj] at he
    subst he
    simp only [subject_prediction_of] at hq
    split at hq
    · cases hq
    · rw [Option.some_inj] at hq
      rw [← hq]
      refine ⟨le_max_left _ _, ?_⟩
      exact max_le (by norm_num) (min_le_left _ _)

/-! Claim theorems. -/

/-- C2: the claim says generate_prediction never raises a numeric error and in
particular that a history of three eligible attempts with all-null overall
percentages still yields a result.  The code disagrees: with no truthy score,
statistics.mean is applied to an empty list inside
calculate_rank_percentile_prediction and raises StatisticsError, modelled here
as the orchestrator returning none. -/
theorem C2_all_null_history_raises :
    generate_prediction 0 "CAT 2025"
      [mkSession none, mkSession none, mkSession none] = none := by
  rfl

/-- C4: fewer than three eligible attempts always routes to the preliminary
path, and zero attempts yields the fixed neutral result: percentile 50, rank
50000, confidence 0.1, trend insufficient_data, exactly the two generic
suggestions, empty subject percentiles, and range 0 / 100 / 50. -/
theorem C4_preliminary_routing (now : ℚ) (target_exam : String)
    (sessions : List QuizSession) (h : sessions.length < 3) :
    generate_prediction now target_exam sessions =
      some (generate_preliminary_prediction target_exam sessions) ∧
    (sessions = [] →
      generate_preliminary_prediction target_exam sessions =
        zero_attempt_result) := by
  constructor
  · unfold generate_prediction
    rw [if_pos h]
  · intro he
    subst he
    rfl

/-- Witness for C4 at the concrete empty history. -/
theorem C4_preliminary_routing_witness :
    ([] : List QuizSession).length < 3 ∧
    (generate_prediction 0 "CAT 2025" [] =
        some (generate_preliminary_prediction "CAT 2025" []) ∧
      (([] : List QuizSession) = [] →
        generate_preliminary_prediction "CAT 2025" [] = zero_attempt_result)) :=
  ⟨by decide, C4_preliminary_routing 0 "CAT 2025" [] (by decide)⟩

/-- C8: the claim says every result has predicted_rank at least 1.  On the
preliminary path the source omits the max(1, rank) clamp used by the full
pipeline, so a 1-attempt history with a latest overall percentage of 100
produces predicted_rank 0. -/
theorem C8_preliminary_rank_zero :
    ∃ r, generate_prediction 0 "CAT 2025" [mkSession (some 100)] = some r ∧
      r.predicted_rank = 0 ∧ r.predicted_percentile = 100 := by
  refine ⟨generate_preliminary_prediction "CAT 2025" [mkSession (some 100)],
    rfl, ?_, ?_⟩
  · show pyInt ((get_estimated_candidates "CAT 2025" : ℚ) * (100 - 100) / 100) = 0
    have h1 : get_estimated_candidates "CAT 2025" = 200000 := by decide
    rw [h1]
    norm_num [pyInt]
  · rfl

/-- C3 counterexample: the claim states the rank uses round (nearest integer).
The source truncates with int().  At percentile 499497/5000 = 99.8994 and the
unknown exam family XAT (pool 100000), the scaled value is 100.6: the source
yields rank 100 while the claimed formula yields 101. -/
theorem C3_round_counterexample :
    predicted_rank_of "XAT 2025" (499497 / 5000) = 100 ∧
    claimed_predicted_rank "XAT 2025" (499497 / 5000) = 101 := by
  constructor
  · unfold predicted_rank_of
    have h1 : get_estimated_candidates "XAT 2025" = 100000 := by decide
    rw [h1]
    have h2 : ((100000 : ℤ) : ℚ) * (100 - 499497 / 5000) / 100 = 503 / 5 := by
      norm_num
    rw [h2]
    have h3 : pyInt (503 / 5) = 100 := by
      unfold pyInt
      rw [if_pos (by norm_num)]
      norm_num
    rw [h3]
    decide
  · unfold claimed_predicted_rank
    have h1 : claimed_pool_size (upperStr (firstToken "XAT 2025")) = 100000 := by
      decide
    rw [h1]
    have h2 : ((100000 : ℤ) : ℚ) * (100 - 499497 / 5000) / 100 = 503 / 5 := by
      norm_num
    rw [h2]
    have h3 : round (503 / 5 : ℚ) = 101 := by
      rw [round_eq]
      norm_num
    rw [h3]
    decide

/-- C3 amended: in the full pipeline the predicted rank equals
max(1, floor(pool_size * (100 - percentile) / 100)) - truncation toward zero
rather than rounding - with the pool size looked up exactly as the claim
tables it (CAT 200000, JEE 1000000, NEET 1500000, GATE 800000, unknown
100000); and the rank the pipeline returns is exactly this conversion of the
returned percentile. -/
theorem C3_rank_formula (target_exam : String) (p : ℚ)
    (h0 : 0 ≤ p) (h1 : p ≤ 100) :
    predicted_rank_of target_exam p =
      max 1 ⌊(claimed_pool_size (upperStr (firstToken target_exam)) : ℚ) *
        (100 - p) / 100⌋ ∧
    ∀ sessions rank pct,
      calculate_rank_percentile_prediction sessions target_exam =
        some (rank, pct) →
      rank = predicted_rank_of target_exam pct := by
  constructor
  · unfold predicted_rank_of
    rw [get_estimated_candidates_eq]
    congr 1
    apply pyInt_eq_floor
    have hpool := claimed_pool_size_pos (upperStr (firstToken target_exam))
    have hpool2 : (0 : ℚ) ≤
        (claimed_pool_size (upperStr (firstToken target_exam)) : ℚ) := by
      exact_mod_cast hpool.le
    have hnum : (0 : ℚ) ≤
        (claimed_pool_size (upperStr (firstToken target_exam)) : ℚ) * (100 - p) :=
      mul_nonneg hpool2 (by linarith)
    positivity
  · intro sessions rank pct h
    simp only [calculate_rank_percentile_prediction] at h
    split at h
    · cases h
    · rw [Option.some_inj] at h
      cases h
      rfl

/-- Witness for the amended C3 at exam CAT 2025 and percentile 73.5. -/
theorem C3_rank_formula_witness :
    (0 : ℚ) ≤ 147 / 2 ∧ (147 / 2 : ℚ) ≤ 100 ∧
    (predicted_rank_of "CAT 2025" (147 / 2) =
      max 1 ⌊(claimed_pool_size (upperStr (firstToken "CAT 2025")) : ℚ) *
        (100 - 147 / 2) / 100⌋ ∧
    ∀ sessions rank pct,
      calculate_rank_percentile_prediction sessions "CAT 2025" =
        some (rank, pct) →
      rank = predicted_rank_of "CAT 2025" pct) :=
  ⟨by norm_num, by norm_num,
    C3_rank_formula "CAT 2025" (147 / 2) (by norm_num) (by norm_num)⟩

/-- C5 counterexample: the claim requires at least 3 attempts with a non-null
percentage before any trend is reported.  The source only counts sessions: on
a six-session history with just two non-null scores (60 oldest, 70 newest)
the source reports improving, while the claimed analyzer reports
insufficient_data. -/
theorem C5_trend_counterexample :
    analyze_performance_trend trendSessions = "improving" ∧
    claimed_performance_trend trendSessions = "insufficient_data" := by
  constructor
  · have hr : scoresOf (lastSessions 5 trendSessions) = [70] := by rfl
    have ho : scoresOf (dropLastSessions 5 trendSessions) = [60] := by rfl
    simp only [analyze_performance_trend]
    rw [hr, ho]
    norm_num [mean]
    intro hlen
    simp [trendSessions] at hlen
  · rfl

/-- C5 amended: the analyzer returns insufficient_data when there are fewer
than 3 attempts in total (regardless of how many carry scores); otherwise it
compares the means of the present-and-nonzero scores in the last-5 window
against those of all earlier attempts, returning insufficient_data when
either list is empty, improving above +5, declining below -5, else stable. -/
theorem C5_trend_amended (sessions : List QuizSession) :
    analyze_performance_trend sessions = amended_performance_trend sessions := by
  unfold analyze_performance_trend amended_performance_trend
  rw [scoresOf_eq_truthy (lastSessions 5 sessions),
    scoresOf_eq_truthy (dropLastSessions 5 sessions)]

/-- C6 counterexample: the claim says the per-subject consistency factor is
computed identically to the section 4.4 consistency score (floored at 0.9).
The source instead uses max(0.9, 1 - sample variance / 1000).  For subject
math with samples 50 and 60 the source multiplies the base 55 by 0.95 giving
52.25, while the claimed rule multiplies by 0.9 giving 49.5. -/
theorem C6_subject_prediction_counterexample :
    subject_prediction_of subjectSessions "math" = some (209 / 4) ∧
    claimed_subject_prediction subjectSessions "math" = some ((99 / 2 : ℚ) : ℝ) ∧
    (subject_prediction_of subjectSessions "math").map (fun q => ((q : ℚ) : ℝ)) ≠
      claimed_subject_prediction subjectSessions "math" := by
  have hs : subjectScoresFor subjectSessions "math" = [50, 60] := by rfl
  have hbase : mean [50, 60] = 55 := by norm_num [mean]
  have h1 : subject_prediction_of subjectSessions "math" = some (209 / 4) := by
    have ha : apply_subject_adjustments "math" 55 [50, 60] = 209 / 4 := by
      unfold apply_subject_adjustments
      have hb : (difficulty_adjustments.lookup (normalizeSubject "math")).getD 0 =
          0 := by decide
      rw [hb]
      norm_num [variance, mean, max_def]
    simp only [subject_prediction_of]
    rw [hs]
    rw [if_neg (by simp : ¬ ([50, 60] : List ℚ) = []),
      if_neg (by norm_num : ¬ 3 ≤ ([50, 60] : List ℚ).length), hbase, ha]
    norm_num
  have h2 : claimed_subject_prediction subjectSessions "math" =
      some ((99 / 2 : ℚ) : ℝ) := by
    have hsc : spec_consistency_of [50, 60] = 9 / 11 := by
      unfold spec_consistency_of
      rw [if_neg (by norm_num : ¬ ([50, 60] : List ℚ).length < 2)]
      rw [hbase]
      rw [if_neg (by norm_num : ¬ (55 : ℚ) = 0)]
      have hpv : population_variance [50, 60] = 25 := by
        norm_num [population_variance, mean]
      rw [hpv]
      have h5 : Real.sqrt ((25 : ℚ) : ℝ) = 5 := by
        rw [show ((25 : ℚ) : ℝ) = (5 : ℝ) ^ 2 by norm_num,
          Real.sqrt_sq (by norm_num : (0 : ℝ) ≤ 5)]
      rw [h5]
      rw [show ((55 : ℚ) : ℝ) = 55 by norm_num]
      rw [max_eq_right (by norm_num : (0 : ℝ) ≤ 1 - 5 / 55 / 0.5)]
      rw [min_eq_right (by norm_num : (1 : ℝ) - 5 / 55 / 0.5 ≤ 1)]
      norm_num
    have hcb : claimed_difficulty_bias (normalizeSubject "math") = 0 := by decide
    simp only [claimed_subject_prediction]
    rw [hs]
    rw [if_neg (by simp : ¬ ([50, 60] : List ℚ) = []),
      if_neg (by norm_num : ¬ 3 ≤ ([50, 60] : List ℚ).length),
      if_pos (by norm_num : 2 ≤ ([50, 60] : List ℚ).length), hbase, hsc, hcb]
    have hmax : max (0.9 : ℝ) (9 / 11) = 0.9 := by
      rw [max_eq_left (by norm_num : (9 / 11 : ℝ) ≤ 0.9)]
    rw [hmax]
    rw [show ((55 : ℚ) : ℝ) = 55 by norm_num,
      show ((0 : ℚ) : ℝ) = 0 by norm_num]
    rw [min_eq_right (by norm_num : (55 : ℝ) * 0.9 + 0 ≤ 100)]
    rw [max_eq_right (by norm_num : (0 : ℝ) ≤ 55 * 0.9 + 0)]
    norm_num
  refine ⟨h1, h2, ?_⟩
  rw [h1, h2]
  intro h
  simp only [Option.map_some', Option.some_inj] at h
  rw [show ((209 / 4 : ℚ) : ℝ) = 209 / 4 by norm_num] at h
  rw [show ((99 / 2 : ℚ) : ℝ) = 99 / 2 by norm_num] at h
  norm_num at h

/-- C6 amended: the per-subject consistency factor is
max(0.9, 1 - sample variance / 1000) when the subject has at least two
samples and 0.95 otherwise; base weighting, difficulty-bias table and final
clamp are exactly as claimed. -/
theorem C6_subject_prediction_amended (sessions : List QuizSession)
    (subject : String) :
    subject_prediction_of sessions subject =
      amended_subject_prediction sessions subject := by
  unfold subject_prediction_of amended_subject_prediction
    apply_subject_adjustments
  rw [difficulty_bias_eq]
  rfl

/-- C7 counterexample: the claim says the consistency score uses the
population variance over the non-null samples.  The source uses the sample
variance over the truthy samples: on overall scores 30 and 70 the source
computes CV = sqrt(800)/50 which exceeds 0.5 and clamps to 0, while the
claimed rule computes CV = sqrt(400)/50 = 0.4 and yields 0.2. -/
theorem C7_consistency_counterexample :
    calculate_consistency_score consistencySessions = 0 ∧
    claimed_consistency_score consistencySessions = 0.2 := by
  constructor
  · have hs : scoresOf consistencySessions = [30, 70] := by rfl
    have hm : mean [30, 70] = 50 := by norm_num [mean]
    simp only [calculate_consistency_score]
    rw [hs]
    rw [if_neg (by norm_num : ¬ ([30, 70] : List ℚ).length < 2)]
    rw [hm]
    rw [if_neg (by norm_num : ¬ (50 : ℚ) = 0)]
    have hv : variance [30, 70] = 800 := by norm_num [variance, mean]
    rw [hv]
    have h800 : (25 : ℝ) ≤ Real.sqrt ((800 : ℚ) : ℝ) := by
      rw [show ((800 : ℚ) : ℝ) = 800 by norm_num]
      have h2 : (25 : ℝ) = Real.sqrt 625 := by
        rw [show (625 : ℝ) = 25 ^ 2 by norm_num,
          Real.sqrt_sq (by norm_num : (0 : ℝ) ≤ 25)]
      rw [h2]
      exact Real.sqrt_le_sqrt (by norm_num)
    have hle : 1 - Real.sqrt ((800 : ℚ) : ℝ) / ((50 : ℚ) : ℝ) / 0.5 ≤ 0 := by
      have he : Real.sqrt ((800 : ℚ) : ℝ) / ((50 : ℚ) : ℝ) / 0.5 =
          Real.sqrt ((800 : ℚ) : ℝ) / 25 := by
        push_cast
        ring
      rw [he]
      have hge : (1 : ℝ) ≤ Real.sqrt ((800 : ℚ) : ℝ) / 25 := by
        rw [le_div_iff₀ (by norm_num : (0 : ℝ) < 25)]
        linarith
      linarith
    rw [max_eq_left hle]
    rw [min_eq_right (by norm_num : (0 : ℝ) ≤ 1)]
  · have hf : consistencySessions.filterMap (fun s => s.percentage_score) =
        [30, 70] := by rfl
    have hm : mean [30, 70] = 50 := by norm_num [mean]
    simp only [claimed_consistency_score]
    rw [hf]
    unfold spec_consistency_of
    rw [if_neg (by norm_num : ¬ ([30, 70] : List ℚ).length < 2)]
    rw [hm]
    rw [if_neg (by norm_num : ¬ (50 : ℚ) = 0)]
    have hpv : population_variance [30, 70] = 400 := by
      norm_num [population_variance, mean]
    rw [hpv]
    have h20 : Real.sqrt ((400 : ℚ) : ℝ) = 20 := by
      rw [show ((400 : ℚ) : ℝ) = (20 : ℝ) ^ 2 by norm_num,
        Real.sqrt_sq (by norm_num : (0 : ℝ) ≤ 20)]
    rw [h20]
    rw [show ((50 : ℚ) : ℝ) = 50 by norm_num]
    rw [max_eq_right (by norm_num : (0 : ℝ) ≤ 1 - 20 / 50 / 0.5)]
    rw [min_eq_right (by norm_num : (1 : ℝ) - 20 / 50 / 0.5 ≤ 1)]
    norm_num

/-- C7 amended: the consistency score is computed over the
present-and-nonzero overall percentages with the sample variance
(denominator n - 1); the fallbacks 0.5, 0.1 and the clamp are as claimed. -/
theorem C7_consistency_amended (sessions : List QuizSession) :
    calculate_consistency_score sessions = amended_consistency_score sessions := by
  unfold calculate_consistency_score amended_consistency_score
  rw [scoresOf_eq_truthy]

/-- C9 counterexample: the claim says two calls over the same unchanged
history return identical results independent of when each call runs.  The
recency factor of the confidence estimator reads the current clock: the same
three-session history evaluated at day 0 yields confidence 0.79 but at day
900 yields 0.69, so the results differ. -/
theorem C9_time_dependence_counterexample :
    generate_prediction 0 "CAT 2025" timeSessions ≠
      generate_prediction 900 "CAT 2025" timeSessions := by
  have hlt : ¬ timeSessions.length < 3 := by decide
  have hs : scoresOf timeSessions = [60, 60, 60] := by rfl
  have hm : mean [60, 60, 60] = 60 := by norm_num [mean]
  have htrend : analyze_performance_trend timeSessions = "insufficient_data" := by
    simp only [analyze_performance_trend]
    rw [if_neg hlt]
    have h1 : scoresOf (dropLastSessions 5 timeSessions) = [] := by rfl
    rw [h1]
    rw [if_pos (Or.inr rfl)]
  have hrank : calculate_rank_percentile_prediction timeSessions "CAT 2025" =
      some (80000, 60) := by
    have hr3 : scoresOf (lastSessions 3 timeSessions) = [60, 60, 60] := by rfl
    simp only [calculate_rank_percentile_prediction]
    rw [hs, hr3, htrend]
    rw [if_neg (by simp : ¬ ([60, 60, 60] : List ℚ) = [])]
    rw [if_neg (by simp : ¬ ([60, 60, 60] : List ℚ) = [])]
    rw [if_neg (by decide : ¬ ("insufficient_data" : String) = "improving")]
    rw [if_neg (by decide : ¬ ("insufficient_data" : String) = "declining")]
    rw [hm]
    have hP : max (0 : ℚ) (min 100 (60 * 0.7 + 60 * 0.3)) = 60 := by norm_num
    rw [hP]
    have hpr : predicted_rank_of "CAT 2025" 60 = 80000 := by
      unfold predicted_rank_of
      have hg : get_estimated_candidates "CAT 2025" = 200000 := by decide
      rw [hg]
      have hq : ((200000 : ℤ) : ℚ) * (100 - 60) / 100 = 80000 := by norm_num
      rw [hq]
      have hpi : pyInt (80000 : ℚ) = 80000 := by
        unfold pyInt
        rw [if_pos (by norm_num : (0 : ℚ) ≤ 80000)]
        norm_num
      rw [hpi]
      decide
    rw [hpr]
  have hcons : calculate_consistency_score timeSessions = 1 := by
    simp only [calculate_consistency_score]
    rw [hs]
    rw [if_neg (by norm_num : ¬ ([60, 60, 60] : List ℚ).length < 2)]
    rw [hm]
    rw [if_neg (by norm_num : ¬ (60 : ℚ) = 0)]
    have hv : variance [60, 60, 60] = 0 := by norm_num [variance, mean]
    rw [hv]
    rw [show ((0 : ℚ) : ℝ) = 0 by norm_num, Real.sqrt_zero]
    norm_num [min_def, max_def]
  have hlen : timeSessions.length = 3 := by rfl
  have hls : latestStart timeSessions = 0 := by rfl
  have hfil : (timeSessions.filter isCompleteSession).length = 3 := by rfl
  have hc1 : calculate_prediction_confidence 0 timeSessions = 0.79 := by
    simp only [calculate_prediction_confidence]
    rw [if_neg hlt]
    rw [hcons, hls, hfil, hlen]
    have hfl : (⌊(0 : ℚ) - 0⌋ : ℤ) = 0 := by norm_num
    rw [hfl]
    push_cast
    norm_num [min_def, max_def]
  have hc2 : calculate_prediction_confidence 900 timeSessions = 0.69 := by
    simp only [calculate_prediction_confidence]
    rw [if_neg hlt]
    rw [hcons, hls, hfil, hlen]
    have hfl : (⌊(900 : ℚ) - 0⌋ : ℤ) = 900 := by norm_num
    rw [hfl]
    push_cast
    norm_num [min_def, max_def]
  intro h
  have hmap := congrArg (Option.map (fun r => r.confidence_score)) h
  unfold generate_prediction at hmap
  rw [if_neg hlt] at hmap
  rw [hrank] at hmap
  dsimp only at hmap
  rw [hc1, hc2] at hmap
  rw [if_neg hlt] at hmap
  norm_num at hmap

/-- C9 amended: the result is a deterministic function of the history and the
current time; predicted rank, percentile, subject percentiles, suggestions
and trend do not depend on the current time, while the confidence score (via
its recency factor) and with it the score range may differ between calls made
at different times. -/
theorem C9_time_independent_fields (now1 now2 : ℚ) (target_exam : String)
    (sessions : List QuizSession) :
    (generate_prediction now1 target_exam sessions).map
        (fun r => r.predicted_rank) =
      (generate_prediction now2 target_exam sessions).map
        (fun r => r.predicted_rank) ∧
    (generate_prediction now1 target_exam sessions).map
        (fun r => r.predicted_percentile) =
      (generate_prediction now2 target_exam sessions).map
        (fun r => r.predicted_percentile) ∧
    (generate_prediction now1 target_exam sessions).map
        (fun r => r.subject_percentiles) =
      (generate_prediction now2 target_exam sessions).map
        (fun r => r.subject_percentiles) ∧
    (generate_prediction now1 target_exam sessions).map
        (fun r => r.improvement_suggestions) =
      (generate_prediction now2 target_exam sessions).map
        (fun r => r.improvement_suggestions) ∧
    (generate_prediction now1 target_exam sessions).map
        (fun r => r.performance_trend) =
      (generate_prediction now2 target_exam sessions).map
        (fun r => r.performance_trend) := by
  unfold generate_prediction
  split_ifs with h
  · exact ⟨rfl, rfl, rfl, rfl, rfl⟩
  · cases hc : calculate_rank_percentile_prediction sessions target_exam with
    | none => exact ⟨rfl, rfl, rfl, rfl, rfl⟩
    | some pair =>
      cases pair with
      | mk a b => exact ⟨rfl, rfl, rfl, rfl, rfl⟩

/-- C10: on the preliminary path with one or two attempts, a latest attempt
with recorded overall percentage exactly 0 behaves like an absent percentage:
the result equals the one computed from a null percentage, and the predicted
percentile defaults to 50. -/
theorem C10_zero_percentage_preliminary (now : ℚ) (target_exam : String)
    (rest : List QuizSession) (s : QuizSession)
    (hlen : (rest ++ [s]).length < 3) (hp : s.percentage_score = some 0) :
    generate_prediction now target_exam (rest ++ [s]) =
      generate_prediction now target_exam
        (rest ++ [{ s with percentage_score := none }]) ∧
    (generate_prediction now target_exam (rest ++ [s])).map
        (fun r => r.predicted_percentile) = some 50 := by
  have hlen2 : (rest ++ [{ s with percentage_score := none }]).length < 3 := by
    simpa using hlen
  have hne : rest ++ [s] ≠ [] := by simp
  have hne2 : rest ++ [{ s with percentage_score := none }] ≠ [] := by simp
  unfold generate_prediction
  rw [if_pos hlen, if_pos hlen2]
  unfold generate_preliminary_prediction
  rw [if_neg hne, if_neg hne2]
  rw [List.getLastD_concat, List.getLastD_concat]
  simp [hp]

/-- Witness for C10 at a concrete single-attempt history. -/
theorem C10_zero_percentage_preliminary_witness :
    (([] : List QuizSession) ++ [mkSession (some 0)]).length < 3 ∧
    (mkSession (some 0)).percentage_score = some 0 ∧
    (generate_prediction 0 "CAT 2025" ([] ++ [mkSession (some 0)]) =
        generate_prediction 0 "CAT 2025"
          ([] ++ [{ mkSession (some 0) with percentage_score := none }]) ∧
      (generate_prediction 0 "CAT 2025" ([] ++ [mkSession (some 0)])).map
          (fun r => r.predicted_percentile) = some 50) :=
  ⟨by decide, rfl,
    C10_zero_percentage_preliminary 0 "CAT 2025" [] (mkSession (some 0))
      (by decide) rfl⟩

theorem preliminary_base_bounds {sessions : List QuizSession}
    (hv : ValidHistory sessions) (hnil : sessions ≠ []) :
    0 ≤ (match (sessions.getLastD defaultSession).percentage_score with
         | none => (50 : ℚ)
         | some p => if p = 0 then 50 else p) ∧
    (match (sessions.getLastD defaultSession).percentage_score with
     | none => (50 : ℚ)
     | some p => if p = 0 then 50 else p) ≤ 100 := by
  have hmem := getLastD_mem sessions defaultSession hnil
  cases hps : (sessions.getLastD defaultSession).percentage_score with
  | none => norm_num
  | some p =>
    dsimp only
    split_ifs with hp0
    · norm_num
    · exact hv _ hmem p hps

theorem preliminary_record_bounds (b : ℚ) (hb0 : 0 ≤ b) (hb100 : b ≤ 100)
    (rank : ℤ) (subs : List (String × PyVal)) (suggs : List String) :
    BoundsInvariant
      { predicted_rank := rank
        predicted_percentile := b
        subject_percentiles := subs
        confidence_score := 0.3
        improvement_suggestions := suggs
        performance_trend := "preliminary"
        expected_score_range :=
          { min := ((max 0 (b - 20) : ℚ) : ℝ)
            max := ((min 100 (b + 20) : ℚ) : ℝ)
            expected := some ((b : ℚ) : ℝ) } } := by
  unfold BoundsInvariant
  dsimp only
  refine ⟨⟨hb0, hb100⟩, ⟨by norm_num, by norm_num⟩,
    ⟨((b : ℚ) : ℝ), rfl, ?_, ?_, ?_, ?_⟩⟩
  · have h1 : (0 : ℚ) ≤ max 0 (b - 20) := le_max_left _ _
    exact_mod_cast h1
  · have h1 : max 0 (b - 20) ≤ b := max_le hb0 (by linarith)
    exact_mod_cast h1
  · have h1 : b ≤ min 100 (b + 20) := le_min hb100 (by linarith)
    exact_mod_cast h1
  · have h1 : min 100 (b + 20) ≤ (100 : ℚ) := min_le_left _ _
    exact_mod_cast h1

/-- C1 amended: for valid histories every returned result has
predicted_percentile in [0,100], confidence in [0.1,0.95], and an ordered
expected-score range within [0,100] carrying the expected key; the
subject-percentile values are guaranteed to be bare numbers in [0,100] on the
zero-attempt and full-pipeline paths (on the 1-2 attempt preliminary path the
source passes the latest subject_scores dict through unchanged, so that
clause is restricted accordingly). -/
theorem C1_result_invariants (now : ℚ) (target_exam : String)
    (sessions : List QuizSession) (hv : ValidHistory sessions)
    (r : PredictionResult)
    (hr : generate_prediction now target_exam sessions = some r) :
    BoundsInvariant r ∧
    ((sessions.length = 0 ∨ 3 ≤ sessions.length) → SubjectValuesNumeric r) := by
  unfold generate_prediction at hr
  by_cases hlen : sessions.length < 3
  · rw [if_pos hlen, Option.some_inj] at hr
    subst hr
    by_cases hnil : sessions = []
    · subst hnil
      constructor
      · rw [show generate_preliminary_prediction target_exam [] =
            zero_attempt_result from rfl]
        refine ⟨⟨?_, ?_⟩, ⟨?_, ?_⟩, ⟨50, rfl, ?_, ?_, ?_, ?_⟩⟩ <;>
          norm_num [zero_attempt_result]
      · intro _ kv hkv
        have h0 : (generate_preliminary_prediction target_exam
            ([] : List QuizSession)).subject_percentiles = [] := rfl
        rw [h0] at hkv
        cases hkv
    · constructor
      · obtain ⟨hb0, hb100⟩ := preliminary_base_bounds hv hnil
        unfold generate_preliminary_prediction
        rw [if_neg hnil]
        exact preliminary_record_bounds _ hb0 hb100 _ _ _
      · intro hcase
        exfalso
        rcases hcase with h0 | h3
        · exact hnil (List.length_eq_zero.mp h0)
        · omega
  · rw [if_neg hlen] at hr
    cases hc : calculate_rank_percentile_prediction sessions target_exam with
    | none => rw [hc] at hr; cases hr
    | some pair =>
      obtain ⟨rank, pct⟩ := pair
      rw [hc] at hr
      dsimp only at hr
      rw [Option.some_inj] at hr
      subst hr
      obtain ⟨hne, hp0, hp100⟩ := rank_percentile_some hc
      constructor
      · exact ⟨⟨hp0, hp100⟩, confidence_bounds now sessions,
          score_range_ok hv hne (confidence_bounds now sessions).2⟩
      · intro _ kv hkv
        rw [List.mem_map] at hkv
        obtain ⟨sp, hsp, rfl⟩ := hkv
        have hb := subject_predictions_bounds sessions sp hsp
        exact ⟨sp.2, rfl, hb.1, hb.2⟩

/-- Witness for the amended C1 at the empty history. -/
theorem C1_result_invariants_witness :
    ValidHistory [] ∧
    generate_prediction 0 "CAT 2025" [] = some zero_attempt_result ∧
    (BoundsInvariant zero_attempt_result ∧
      ((([] : List QuizSession).length = 0 ∨ 3 ≤ ([] : List QuizSession).length) →
        SubjectValuesNumeric zero_attempt_result)) :=
  ⟨(by intro s hs p hp; cases hs), rfl,
    C1_result_invariants 0 "CAT 2025" []
      (by intro s hs p hp; cases hs) zero_attempt_result rfl⟩

/-- C1 counterexample: the claim asserts that every value of
subject_percentiles is a number in [0,100].  On the 1-2 attempt preliminary
path the source stores the latest subject_scores mapping unchanged, whose
values are nested dicts, not numbers: a single valid attempt carrying subject
quant refutes the claim. -/
theorem C1_subject_values_counterexample :
    ValidHistory [dictSession] ∧
    ∃ r, generate_prediction 0 "CAT 2025" [dictSession] = some r ∧
      ¬ ClaimedResultInvariant r := by
  constructor
  · intro s hs p hp
    rw [List.mem_singleton] at hs
    subst hs
    have h80 : dictSession.percentage_score = some 80 := rfl
    rw [h80, Option.some_inj] at hp
    subst hp
    norm_num
  · refine ⟨generate_preliminary_prediction "CAT 2025" [dictSession], rfl, ?_⟩
    intro hinv
    obtain ⟨-, hsubj⟩ := hinv
    have hsp : (generate_preliminary_prediction "CAT 2025"
        [dictSession]).subject_percentiles =
        [("quant", PyVal.dict [("percentage", 80)])] := rfl
    have hkv := hsubj ("quant", PyVal.dict [("percentage", 80)])
      (by rw [hsp]; exact List.mem_singleton.mpr rfl)
    obtain ⟨q, hq, -, -⟩ := hkv
    cases hq

end PredictionService
